import Mathlib

/-!
Verification development for the OpticsSim mirror-reflection visualization
(interactive canvas class, file src/unnamed/part_003, plus the earlier
iteration in src/src/main.ts).

The embedding is shallow: SVG elements become records of their geometric
attributes (missing attributes are Option fields, matching getAttribute
returning null), real-number coordinates become exact rationals, DOM
mutation becomes explicit state passing over a store of element handles,
and every place where the TypeScript would throw a TypeError (a non-null
assertion on a null value) becomes an Except.error.
-/

namespace OpticsSim

/-- Point with rational coordinates, mirroring the (x, y) value type of the
external geometry library. -/
@[ext]
structure Pt where
  x : ℚ
  y : ℚ
deriving DecidableEq, Repr

/-- Line through two points, used only as a reflection axis. -/
structure Ln where
  p1 : Pt
  p2 : Pt
deriving DecidableEq, Repr

/-- Segment between two points, used for intersection tests. -/
structure Seg where
  p1 : Pt
  p2 : Pt
deriving DecidableEq, Repr

/-- Decidable equality for Except results, so that concrete evaluations of
the fallible operations can be checked by decide. -/
instance exceptDecEq {ε α : Type} [DecidableEq ε] [DecidableEq α] :
    DecidableEq (Except ε α) := fun a b =>
  match a, b with
  | .error e1, .error e2 =>
    if h : e1 = e2 then isTrue (by rw [h])
    else isFalse (by intro hc; cases hc; exact h rfl)
  | .error _, .ok _ => isFalse (by intro hc; cases hc)
  | .ok _, .error _ => isFalse (by intro hc; cases hc)
  | .ok v1, .ok v2 =>
    if h : v1 = v2 then isTrue (by rw [h])
    else isFalse (by intro hc; cases hc; exact h rfl)

/-- Modelled from the spec: the reflect-point-across-line primitive of the
external geometry library (@mathigon/euclid, Point.reflect), which is not
part of this repository. It mirrors the point across the infinite line
through l.p1 and l.p2 by the standard perpendicular projection formula. -/
def reflect (p : Pt) (l : Ln) : Pt :=
  let v := l.p2.x - l.p1.x
  let w := l.p2.y - l.p1.y
  let x0 := p.x - l.p1.x
  let y0 := p.y - l.p1.y
  let mu := (v * y0 - w * x0) / (v * v + w * w)
  ⟨p.x + 2 * mu * w, p.y - 2 * mu * v⟩

/-- A point lies on the (infinite) line: the collinearity cross-product
vanishes. -/
def onLine (p : Pt) (l : Ln) : Prop :=
  (l.p2.x - l.p1.x) * (p.y - l.p1.y) = (l.p2.y - l.p1.y) * (p.x - l.p1.x)

instance (p : Pt) (l : Ln) : Decidable (onLine p l) := by
  unfold onLine; infer_instance

theorem line_denom_ne_zero (l : Ln) (hne : l.p1 ≠ l.p2) :
    (l.p2.x - l.p1.x) * (l.p2.x - l.p1.x) + (l.p2.y - l.p1.y) * (l.p2.y - l.p1.y) ≠ 0 := by
  intro h
  apply hne
  have hx : l.p2.x - l.p1.x = 0 := by nlinarith [sq_nonneg (l.p2.x - l.p1.x), sq_nonneg (l.p2.y - l.p1.y)]
  have hy : l.p2.y - l.p1.y = 0 := by nlinarith [sq_nonneg (l.p2.x - l.p1.x), sq_nonneg (l.p2.y - l.p1.y)]
  ext
  · linarith
  · linarith

/-- C3: reflecting a point twice across the same (nondegenerate) line
returns the original point exactly, and a point on the line is a fixed
point of the reflection. Over the exact rational embedding the equalities
are exact, which is stronger than the 1e-9 floating tolerance of the
claim. -/
theorem reflect_involution_fixed (p : Pt) (l : Ln) (hne : l.p1 ≠ l.p2) :
    reflect (reflect p l) l = p ∧ (onLine p l → reflect p l = p) := by
  have hd := line_denom_ne_zero l hne
  constructor
  · unfold reflect
    simp only
    cases p with
    | mk px py =>
      simp only [Pt.mk.injEq]
      constructor <;> (field_simp; ring)
  · intro hon
    unfold onLine at hon
    unfold reflect
    simp only
    cases p with
    | mk px py =>
      simp only [Pt.mk.injEq]
      have hnum : (l.p2.x - l.p1.x) * (py - l.p1.y) - (l.p2.y - l.p1.y) * (px - l.p1.x) = 0 := by
        simp only at hon; linarith [hon]
      constructor <;> (simp only at hnum ⊢; rw [hnum]; simp)

/-- C3 witness: the involution and fixed-point facts at a concrete point
and line. -/
theorem reflect_involution_fixed_witness :
    (⟨⟨0, 0⟩, ⟨1, 1⟩⟩ : Ln).p1 ≠ (⟨⟨0, 0⟩, ⟨1, 1⟩⟩ : Ln).p2 ∧
    (reflect (reflect ⟨3, 4⟩ ⟨⟨0, 0⟩, ⟨1, 1⟩⟩) ⟨⟨0, 0⟩, ⟨1, 1⟩⟩ = ⟨3, 4⟩ ∧
      (onLine ⟨3, 4⟩ ⟨⟨0, 0⟩, ⟨1, 1⟩⟩ → reflect ⟨3, 4⟩ ⟨⟨0, 0⟩, ⟨1, 1⟩⟩ = ⟨3, 4⟩)) :=
  ⟨by decide, reflect_involution_fixed ⟨3, 4⟩ ⟨⟨0, 0⟩, ⟨1, 1⟩⟩ (by decide)⟩

/-- RoomBounds record of the source (x, y, width, height). -/
structure RoomBounds where
  x : ℚ
  y : ℚ
  width : ℚ
  height : ℚ
deriving DecidableEq, Repr

/-- MirrorLocations union type of the source. -/
inductive MirrorLocation where
  | topBottom
  | leftRight
  | all
deriving DecidableEq, Repr

/-- Embedding of setupMirrors (src/unnamed/part_003 lines 292-316): the
ordered list of active mirror lines pushed onto mirrorLines. Top and bottom
are pushed first (for top-bottom or all), then left and right (for
left-right or all); no mirrorLocation means no mirrors. -/
def setupMirrors (loc : Option MirrorLocation) (b : RoomBounds) : List Ln :=
  match loc with
  | none => []
  | some loc =>
    let tl : Pt := ⟨b.x, b.y⟩
    let tr : Pt := ⟨b.x + b.width, b.y⟩
    let br : Pt := ⟨b.x + b.width, b.y + b.height⟩
    let bl : Pt := ⟨b.x, b.y + b.height⟩
    (if loc = .topBottom ∨ loc = .all then [⟨tl, tr⟩, ⟨bl, br⟩] else []) ++
      (if loc = .leftRight ∨ loc = .all then [⟨tl, bl⟩, ⟨tr, br⟩] else [])

/-- Embedding of the room-boundary segments of setupReflectionSegments
(src/unnamed/part_003 lines 93-99), in source order: top, right, bottom,
left. -/
def roomSegments (b : RoomBounds) : List Seg :=
  [⟨⟨b.x, b.y⟩, ⟨b.x + b.width, b.y⟩⟩,
   ⟨⟨b.x + b.width, b.y⟩, ⟨b.x + b.width, b.y + b.height⟩⟩,
   ⟨⟨b.x + b.width, b.y + b.height⟩, ⟨b.x, b.y + b.height⟩⟩,
   ⟨⟨b.x, b.y + b.height⟩, ⟨b.x, b.y⟩⟩]

/-- Embedding of the secondary-ring segments of setupReflectionSegments
(src/unnamed/part_003 lines 101-127): left, right, top, bottom adjacent
rooms, in source order. -/
def secondarySegments (b : RoomBounds) : List Seg :=
  [⟨⟨b.x - b.width, b.y⟩, ⟨b.x, b.y⟩⟩,
   ⟨⟨b.x, b.y + b.height⟩, ⟨b.x - b.width, b.y + b.height⟩⟩,
   ⟨⟨b.x - b.width, b.y + b.height⟩, ⟨b.x - b.width, b.y⟩⟩,
   ⟨⟨b.x + b.width, b.y⟩, ⟨b.x + 2 * b.width, b.y⟩⟩,
   ⟨⟨b.x + 2 * b.width, b.y + b.height⟩, ⟨b.x + b.width, b.y + b.height⟩⟩,
   ⟨⟨b.x + 2 * b.width, b.y + b.height⟩, ⟨b.x + 2 * b.width, b.y⟩⟩,
   ⟨⟨b.x, b.y - b.height⟩, ⟨b.x + b.width, b.y - b.height⟩⟩,
   ⟨⟨b.x + b.width, b.y - b.height⟩, ⟨b.x + b.width, b.y⟩⟩,
   ⟨⟨b.x, b.y⟩, ⟨b.x, b.y - b.height⟩⟩,
   ⟨⟨b.x, b.y + b.height⟩, ⟨b.x, b.y + 2 * b.height⟩⟩,
   ⟨⟨b.x, b.y + 2 * b.height⟩, ⟨b.x + b.width, b.y + 2 * b.height⟩⟩,
   ⟨⟨b.x + b.width, b.y + 2 * b.height⟩, ⟨b.x + b.width, b.y + b.height⟩⟩]

/-- Modelled from the spec: segment/segment intersection of the external
geometry library (intersections from @mathigon/euclid, not part of this
repository). Per the spec it returns zero or one intersection point for two
bounded segments, with parallel or collinear overlapping segments treated
as no-intersection: solve the two-line system; if the direction cross
product is zero return none, otherwise return the point when both segment
parameters lie in [0, 1]. -/
def segIntersect (a b : Seg) : Option Pt :=
  let d1x := a.p2.x - a.p1.x
  let d1y := a.p2.y - a.p1.y
  let d2x := b.p2.x - b.p1.x
  let d2y := b.p2.y - b.p1.y
  let denom := d1x * d2y - d1y * d2x
  if denom = 0 then none
  else
    let t := ((b.p1.x - a.p1.x) * d2y - (b.p1.y - a.p1.y) * d2x) / denom
    let u := ((b.p1.x - a.p1.x) * d1y - (b.p1.y - a.p1.y) * d1x) / denom
    if 0 ≤ t ∧ t ≤ 1 ∧ 0 ≤ u ∧ u ≤ 1 then
      some ⟨a.p1.x + t * d1x, a.p1.y + t * d1y⟩
    else none

/-- Embedding of the circle drag clamp of onMouseMove (src/unnamed/part_003
lines 480-496): the candidate center is clamped per axis by
Math.max(bounds + r, Math.min(candidate, bounds + extent - r)). -/
def dragClampCircle (b : RoomBounds) (r : ℚ) (p : Pt) : Pt :=
  ⟨max (b.x + r) (min p.x (b.x + b.width - r)),
   max (b.y + r) (min p.y (b.y + b.height - r))⟩

/-- C4 counterexample: with bounds width 10 and radius 10 (width < 2r) the
clamp always lands on bounds.x + r = 10, not on the room center
bounds.x + width / 2 = 5, refuting the pinned-at-room-center part of the
claim at a concrete input. -/
theorem dragClampCircle_not_room_center :
    (dragClampCircle ⟨0, 0, 10, 10⟩ 10 ⟨0, 0⟩).x = 10 ∧
      (10 : ℚ) ≠ (0 : ℚ) + 10 / 2 ∧ (10 : ℚ) < 2 * 10 := by
  refine ⟨?_, by norm_num, by norm_num⟩
  simp [dragClampCircle]

/-- C4 amended: the clamp maps the candidate center into
[bounds.x + r, bounds.x + width - r] per axis whenever width ≥ 2r, with
out-of-bounds candidates landing exactly on the nearest valid boundary and
in-range candidates left unchanged; when width < 2r the result is always
the single point bounds.x + r (the lower limit, not the room center), so
the range is never inverted. Stated for the x axis; the y axis is the same
formula with y, height. -/
theorem dragClampCircle_clamps (b : RoomBounds) (r : ℚ) (p : Pt) :
    (2 * r ≤ b.width →
      (b.x + r ≤ (dragClampCircle b r p).x ∧ (dragClampCircle b r p).x ≤ b.x + b.width - r) ∧
      (p.x < b.x + r → (dragClampCircle b r p).x = b.x + r) ∧
      (b.x + b.width - r < p.x → (dragClampCircle b r p).x = b.x + b.width - r) ∧
      (b.x + r ≤ p.x → p.x ≤ b.x + b.width - r → (dragClampCircle b r p).x = p.x)) ∧
    (b.width < 2 * r → (dragClampCircle b r p).x = b.x + r) ∧
    (2 * r ≤ b.height →
      (b.y + r ≤ (dragClampCircle b r p).y ∧ (dragClampCircle b r p).y ≤ b.y + b.height - r) ∧
      (p.y < b.y + r → (dragClampCircle b r p).y = b.y + r) ∧
      (b.y + b.height - r < p.y → (dragClampCircle b r p).y = b.y + b.height - r) ∧
      (b.y + r ≤ p.y → p.y ≤ b.y + b.height - r → (dragClampCircle b r p).y = p.y)) ∧
    (b.height < 2 * r → (dragClampCircle b r p).y = b.y + r) := by
  unfold dragClampCircle
  simp only
  refine ⟨fun hw => ⟨⟨le_max_left _ _, ?_⟩, fun h => ?_, fun h => ?_, fun h1 h2 => ?_⟩,
    fun hw => ?_, fun hh => ⟨⟨le_max_left _ _, ?_⟩, fun h => ?_, fun h => ?_, fun h1 h2 => ?_⟩,
    fun hh => ?_⟩ <;>
    rw [max_def, min_def] <;> split_ifs <;> linarith

/-- C4 witness: the amended clamp behavior at concrete inputs, with width
100 ≥ 2·10 and a candidate left of the room. -/
theorem dragClampCircle_clamps_witness :
    2 * (10 : ℚ) ≤ (100 : ℚ) ∧ (-5 : ℚ) < 0 + 10 ∧
      (dragClampCircle ⟨0, 0, 100, 100⟩ 10 ⟨-5, 50⟩).x = 0 + 10 :=
  ⟨by norm_num, by norm_num,
    ((dragClampCircle_clamps ⟨0, 0, 100, 100⟩ 10 ⟨-5, 50⟩).1 (by norm_num)).2.1 (by norm_num)⟩

/-- Shape kinds of the ShapeConfig union type (circle, polygon, path). -/
inductive ShapeType where
  | circle
  | polygon
  | path
deriving DecidableEq, Repr

/-- Shallow model of an SVG shape element created by createShape: its
data-shape-id, tagName / data-shape-type (createShape always sets both to
the same kind), data-draggable flag, and its geometric attributes.
A getAttribute that would return null is a none field; style attributes
(fill, stroke) are presentation only and are not modelled. -/
structure ShapeRec where
  id : String
  ty : ShapeType
  draggable : Bool
  cx : Option ℚ := none
  cy : Option ℚ := none
  r : Option ℚ := none
  points : Option (List Pt) := none
deriving DecidableEq, Repr

/-- Embedding of reflectCircle (src/unnamed/part_003 lines 578-584):
returns undefined (none) when the element is not circle-typed; otherwise
reads cx and cy with the or-zero default and reflects the center. Total:
this read never throws. -/
def reflectCircle (s : ShapeRec) (l : Ln) : Option Pt :=
  if s.ty ≠ ShapeType.circle then none
  else some (reflect ⟨s.cx.getD 0, s.cy.getD 0⟩ l)

/-- Embedding of reflectPolygon (src/unnamed/part_003 lines 586-591):
returns undefined (ok none) when the element is not polygon-typed;
otherwise the points attribute is read under a non-null assertion, so a
missing points list makes parsePoints throw a TypeError (error), else each
vertex is reflected. -/
def reflectPolygon (s : ShapeRec) (l : Ln) : Except String (Option (List Pt)) :=
  if s.ty ≠ ShapeType.polygon then .ok none
  else
    match s.points with
    | none => .error "TypeError: points is null"
    | some ps => .ok (some (ps.map (fun p => reflect p l)))

/-- Image registration record: one imageMap.set call of buildCircleImage /
buildPolygonImage (src/unnamed/part_003 lines 200-235) stored as the parent
key together with the ImageData (created element, mirror line, synthetic
id). The mirror indices i and j of the generating loops are carried
alongside; they are exactly the digits appended to the synthetic id. -/
structure ImageRec where
  id : String
  parentId : String
  line : Ln
  i : ℕ
  j : Option ℕ
  el : ShapeRec
deriving DecidableEq, Repr

/-- Embedding of buildCircleImage (lines 200-218): reflect the parent
element's center across the line and create a non-draggable image circle
carrying the source's r attribute. The non-null assertion on reflectCircle
never fires at its call sites because the parent is always circle-typed. -/
def buildCircleImage (parentEl : ShapeRec) (imgId : String) (rAttr : Option ℚ) (li : Ln) :
    ShapeRec :=
  let p := (reflectCircle parentEl li).getD ⟨0, 0⟩
  { id := imgId, ty := .circle, draggable := false, cx := some p.x, cy := some p.y, r := rAttr }

/-- Embedding of buildPolygonImage (lines 220-235): reflect the parent
element's vertex list across the line and create a non-draggable image
polygon. A parent without a points attribute makes reflectPolygon throw. -/
def buildPolygonImage (parentEl : ShapeRec) (imgId : String) (li : Ln) :
    Except String ShapeRec :=
  match reflectPolygon parentEl li with
  | .error e => .error e
  | .ok res =>
    .ok { id := imgId, ty := .polygon, draggable := false, points := some (res.getD []) }

/-- Embedding of buildImages (src/unnamed/part_003 lines 237-290): for a
circle or polygon source, loop i over all mirror lines building the
first-order image (registered under the source id), and for each j with
j different from i (the i = j case is skipped by continue) build the
second-order image by reflecting the first-order image element across
mirror j (registered under the first-order synthetic id). The returned
list is the sequence of imageMap registrations in emission order; a path
source takes neither branch and registers nothing. -/
def buildImages (mirrors : List Ln) (src : ShapeRec) : Except String (List ImageRec) :=
  let d : Ln := ⟨⟨0, 0⟩, ⟨0, 0⟩⟩
  match src.ty with
  | .circle =>
    .ok ((List.range mirrors.length).flatMap (fun i =>
      let li := mirrors.getD i d
      let id1 := src.id ++ "reflection" ++ toString i
      let el1 := buildCircleImage src id1 src.r li
      let rec1 : ImageRec := ⟨id1, src.id, li, i, none, el1⟩
      rec1 :: (((List.range mirrors.length).filter (fun j => j ≠ i)).map (fun j =>
        let lj := mirrors.getD j d
        let id2 := src.id ++ "reflection" ++ toString i ++ toString j
        ⟨id2, id1, lj, i, some j, buildCircleImage el1 id2 src.r lj⟩))))
  | .polygon =>
    match src.points with
    | none => .error "TypeError: points is null"
    | some ps =>
      .ok ((List.range mirrors.length).flatMap (fun i =>
        let li := mirrors.getD i d
        let id1 := src.id ++ "reflection" ++ toString i
        let el1 : ShapeRec :=
          { id := id1, ty := .polygon, draggable := false,
            points := some (ps.map (fun p => reflect p li)) }
        let rec1 : ImageRec := ⟨id1, src.id, li, i, none, el1⟩
        rec1 :: (((List.range mirrors.length).filter (fun j => j ≠ i)).map (fun j =>
          let lj := mirrors.getD j d
          let id2 := src.id ++ "reflection" ++ toString i ++ toString j
          ⟨id2, id1, lj, i, some j,
            { id := id2, ty := .polygon, draggable := false,
              points := some ((ps.map (fun p => reflect p li)).map (fun p => reflect p lj)) }⟩))))
  | .path => .ok []

/-- C2: with mirror placement all (four active mirrors) a single circle or
polygon source yields exactly 4 first-order images, exactly 12 second-order
images, 16 registrations in total, and no second-order image reuses its
first mirror (no equal index pair). -/
theorem buildImages_all_counts (b : RoomBounds) (src : ShapeRec)
    (h : src.ty = ShapeType.circle ∨ (src.ty = ShapeType.polygon ∧ src.points ≠ none)) :
    ∃ imgs, buildImages (setupMirrors (some .all) b) src = .ok imgs ∧
      (imgs.filter (fun im => im.j.isNone)).length = 4 ∧
      (imgs.filter (fun im => im.j.isSome)).length = 12 ∧
      imgs.length = 16 ∧
      ∀ im ∈ imgs, ∀ k, im.j = some k → im.i ≠ k := by
  have hlen : (setupMirrors (some .all) b).length = 4 := by
    simp [setupMirrors]
  rcases h with hc | ⟨hp, hpts⟩
  · refine ⟨_, by rw [buildImages, hc], ?_⟩
    rw [hlen]
    simp [List.range_succ, List.filter, List.flatMap]
  · rcases Option.ne_none_iff_exists.mp hpts with ⟨ps, hps⟩
    refine ⟨_, by rw [buildImages, hp, ← hps], ?_⟩
    rw [hlen]
    simp [List.range_succ, List.filter, List.flatMap]

/-- ImageData entry of the imageMap (src/unnamed/part_003 line 44): the
created image element (as a numeric handle into the element store, since
the source keeps an object reference), the mirror line it was reflected
across, and its synthetic id. -/
structure ImageDataRef where
  shape : ℕ
  line : Ln
  id : String
deriving DecidableEq, Repr

/-- Element store update: one setAttribute of new geometry on the element
with the given handle. -/
def updStore {G : Type} (st : ℕ → G) (h : ℕ) (v : G) : ℕ → G :=
  fun n => if n = h then v else st n

/-- Inner loop of the onMouseMove propagation (src/unnamed/part_003 lines
504-512 for circles, 556-563 for polygons): each child image's geometry is
recomputed by reflecting the parent element's current geometry across the
child's registered line. The loops for the two shape kinds are textually
identical up to the geometry type and reflect call, abstracted here as rf. -/
def propChildren {G : Type} (rf : G → Ln → G) (parentElem : ℕ)
    (children : List ImageDataRef) (st : ℕ → G) : ℕ → G :=
  children.foldl (fun st2 c => updStore st2 c.shape (rf (st2 parentElem) c.line)) st

/-- Outer loop of the onMouseMove propagation (lines 497-513 for circles,
550-564 for polygons): for each first-order image of the dragged source,
reflect the source element's current geometry across its line, write it,
then recompute that image's children (imageMap.get with the or-empty
default on the child list). -/
def propagateImages {G : Type} (rf : G → Ln → G) (imap : String → List ImageDataRef)
    (srcElem : ℕ) (firsts : List ImageDataRef) (st : ℕ → G) : ℕ → G :=
  firsts.foldl
    (fun stAcc dta =>
      propChildren rf dta.shape (imap dta.id)
        (updStore stAcc dta.shape (rf (stAcc srcElem) dta.line)))
    st

/-- Committed move of a dragged source: write its new geometry, then run
the propagation over its registered first-order images. -/
def onSourceMoved {G : Type} (rf : G → Ln → G) (imap : String → List ImageDataRef)
    (srcElem : ℕ) (srcId : String) (v : G) (st : ℕ → G) : ℕ → G :=
  propagateImages rf imap srcElem (imap srcId) (updStore st srcElem v)

/-- Circle instance of the propagation: the store holds circle centers and
rf is the point reflection, matching reflectCircle applied to the dragged
circle and to the first-order image circles (lines 497-513). -/
def onCircleMoved (imap : String → List ImageDataRef) (srcElem : ℕ) (srcId : String)
    (newCenter : Pt) (st : ℕ → Pt) : ℕ → Pt :=
  onSourceMoved (fun p l => reflect p l) imap srcElem srcId newCenter st

/-- Pointwise reflection of a vertex list, the body of reflectPolygon for a
present points attribute. -/
def reflectPts (ps : List Pt) (l : Ln) : List Pt :=
  ps.map (fun p => reflect p l)

/-- Polygon instance of the propagation: the store holds vertex lists and
rf reflects each vertex, matching reflectPolygon applied to the dragged
polygon and to the first-order image polygons (lines 550-564). -/
def onPolygonMoved (imap : String → List ImageDataRef) (srcElem : ℕ) (srcId : String)
    (newPts : List Pt) (st : ℕ → List Pt) : ℕ → List Pt :=
  onSourceMoved reflectPts imap srcElem srcId newPts st

/-- Element handles written by the propagation over the given first-order
list: each first-order image handle followed by its children's handles. -/
def imageWrites (imap : String → List ImageDataRef) (firsts : List ImageDataRef) : List ℕ :=
  firsts.flatMap (fun dta => dta.shape :: (imap dta.id).map (fun c => c.shape))

theorem propChildren_frame {G : Type} (rf : G → Ln → G) (pe : ℕ)
    (children : List ImageDataRef) (st : ℕ → G) (h : ℕ)
    (hh : h ∉ children.map (fun c => c.shape)) :
    propChildren rf pe children st h = st h := by
  induction children generalizing st with
  | nil => rfl
  | cons c cs ih =>
    simp only [List.map_cons, List.mem_cons, not_or] at hh
    show propChildren rf pe cs (updStore st c.shape (rf (st pe) c.line)) h = st h
    rw [ih _ (by exact fun hmem => hh.2 hmem)]
    simp [updStore, hh.1]

theorem propChildren_correct {G : Type} (rf : G → Ln → G) (pe : ℕ)
    (children : List ImageDataRef) (st : ℕ → G)
    (hpe : pe ∉ children.map (fun c => c.shape))
    (hnd : (children.map (fun c => c.shape)).Nodup) :
    ∀ c ∈ children, propChildren rf pe children st c.shape = rf (st pe) c.line := by
  induction children generalizing st with
  | nil => intro c hc; cases hc
  | cons c0 cs ih =>
    simp only [List.map_cons, List.mem_cons, not_or] at hpe
    simp only [List.map_cons, List.nodup_cons] at hnd
    intro c hc
    show propChildren rf pe cs (updStore st c0.shape (rf (st pe) c0.line)) c.shape =
      rf (st pe) c.line
    rcases List.mem_cons.mp hc with hceq | hcs
    · subst hceq
      rw [propChildren_frame rf pe cs _ _ hnd.1]
      simp [updStore]
    · have hupd : updStore st c0.shape (rf (st pe) c0.line) pe = st pe := by
        simp [updStore, hpe.1]
      rw [ih _ hpe.2 hnd.2 c hcs, hupd]

theorem propagateImages_frame {G : Type} (rf : G → Ln → G)
    (imap : String → List ImageDataRef) (srcElem : ℕ) (firsts : List ImageDataRef)
    (st : ℕ → G) (h : ℕ) (hh : h ∉ imageWrites imap firsts) :
    propagateImages rf imap srcElem firsts st h = st h := by
  induction firsts generalizing st with
  | nil => rfl
  | cons dta rest ih =>
    simp only [imageWrites, List.flatMap_cons, List.mem_append, List.mem_cons,
      List.mem_map, not_or] at hh
    show propagateImages rf imap srcElem rest
      (propChildren rf dta.shape (imap dta.id)
        (updStore st dta.shape (rf (st srcElem) dta.line))) h = st h
    rw [ih _ (by intro hmem; exact hh.2 (by simpa [imageWrites] using hmem))]
    rw [propChildren_frame rf dta.shape _ _ _ (by
      intro hmem
      rcases List.mem_map.mp hmem with ⟨c, hc, hcs⟩
      exact hh.1.2 ⟨c, hc, hcs⟩)]
    simp [updStore, hh.1.1]

theorem propagateImages_correct {G : Type} (rf : G → Ln → G)
    (imap : String → List ImageDataRef) (srcElem : ℕ) (firsts : List ImageDataRef)
    (st : ℕ → G) (hnd : (srcElem :: imageWrites imap firsts).Nodup) :
    ∀ dta ∈ firsts,
      propagateImages rf imap srcElem firsts st dta.shape = rf (st srcElem) dta.line ∧
      ∀ c ∈ imap dta.id,
        propagateImages rf imap srcElem firsts st c.shape =
          rf (propagateImages rf imap srcElem firsts st dta.shape) c.line := by
  induction firsts generalizing st with
  | nil => intro dta hd; cases hd
  | cons d rest ih =>
    have hsrcnot : srcElem ∉ imageWrites imap (d :: rest) := (List.nodup_cons.mp hnd).1
    have hwnd : (imageWrites imap (d :: rest)).Nodup := (List.nodup_cons.mp hnd).2
    have hweq : imageWrites imap (d :: rest) =
        (d.shape :: (imap d.id).map (fun c => c.shape)) ++ imageWrites imap rest := by
      simp [imageWrites]
    rw [hweq] at hsrcnot hwnd
    obtain ⟨hhead, hrnd, hdisj⟩ := List.nodup_append.mp hwnd
    have hdchmap : d.shape ∉ (imap d.id).map (fun c => c.shape) :=
      (List.nodup_cons.mp hhead).1
    have hcnd : ((imap d.id).map (fun c => c.shape)).Nodup := (List.nodup_cons.mp hhead).2
    have hsd : srcElem ≠ d.shape := by
      intro h; exact hsrcnot (by simp [h])
    have hscmap : srcElem ∉ (imap d.id).map (fun c => c.shape) := by
      intro h; exact hsrcnot (by simp [h])
    have hsr : srcElem ∉ imageWrites imap rest := by
      intro h; exact hsrcnot (by simp [h])
    intro dta hdta
    set st1 := updStore st d.shape (rf (st srcElem) d.line) with hst1
    set stA := propChildren rf d.shape (imap d.id) st1 with hstA
    have hshow : propagateImages rf imap srcElem (d :: rest) st =
        propagateImages rf imap srcElem rest stA := rfl
    have hfrA : ∀ h, h ∉ imageWrites imap rest → propagateImages rf imap srcElem rest stA h = stA h :=
      fun h hh => propagateImages_frame rf imap srcElem rest stA h hh
    have hdnotrest : d.shape ∉ imageWrites imap rest := by
      intro hmem
      exact (hdisj (List.mem_cons_self _ _)) hmem
    have hchnotrest : ∀ c ∈ imap d.id, c.shape ∉ imageWrites imap rest := by
      intro c hc hmem
      exact (hdisj (List.mem_cons_of_mem _ (List.mem_map_of_mem _ hc))) hmem
    have hstAd : stA d.shape = rf (st srcElem) d.line := by
      rw [hstA, propChildren_frame rf d.shape _ _ _ hdchmap, hst1]
      simp [updStore]
    have hstAsrc : stA srcElem = st srcElem := by
      rw [hstA, propChildren_frame rf d.shape _ _ _ hscmap, hst1]
      simp [updStore, hsd]
    rcases List.mem_cons.mp hdta with hdeq | hdrest
    · subst hdeq
      have hfinald : propagateImages rf imap srcElem (dta :: rest) st dta.shape =
          rf (st srcElem) dta.line := by
        rw [hshow, hfrA dta.shape hdnotrest, hstAd]
      refine ⟨hfinald, fun c hc => ?_⟩
      rw [hshow, hfrA c.shape (hchnotrest c hc), hfrA dta.shape hdnotrest, hstAd]
      rw [hstA, propChildren_correct rf dta.shape (imap dta.id) st1 hdchmap hcnd c hc]
      rw [hst1]
      simp [updStore]
    · have hndrest : (srcElem :: imageWrites imap rest).Nodup := by
        refine List.nodup_cons.mpr ⟨hsr, hrnd⟩
      have := ih stA hndrest dta hdrest
      rw [hshow]
      rw [hstAsrc] at this
      exact this

/-- C1: after a committed move of a dragged source shape, every image
registered for it in the imageMap — both first-order and second-order —
has geometry exactly equal to reflecting its parent's current geometry
across the image's registered mirror line (the first-order parent being
the moved source itself, the second-order parent being the already
recomputed first-order image), for the circle branch and the polygon
branch of onMouseMove alike. The hypothesis says the moved element and
the registered image elements are pairwise distinct objects, which holds
for the elements allocated by buildImages. -/
theorem onSourceMoved_images_consistent
    (imap : String → List ImageDataRef) (srcElem : ℕ) (srcId : String)
    (newCenter : Pt) (st : ℕ → Pt) (newPts : List Pt) (stP : ℕ → List Pt)
    (hnd : (srcElem :: imageWrites imap (imap srcId)).Nodup) :
    (onCircleMoved imap srcElem srcId newCenter st srcElem = newCenter ∧
      ∀ dta ∈ imap srcId,
        onCircleMoved imap srcElem srcId newCenter st dta.shape =
          reflect (onCircleMoved imap srcElem srcId newCenter st srcElem) dta.line ∧
        ∀ c ∈ imap dta.id,
          onCircleMoved imap srcElem srcId newCenter st c.shape =
            reflect (onCircleMoved imap srcElem srcId newCenter st dta.shape) c.line) ∧
    (onPolygonMoved imap srcElem srcId newPts stP srcElem = newPts ∧
      ∀ dta ∈ imap srcId,
        onPolygonMoved imap srcElem srcId newPts stP dta.shape =
          reflectPts (onPolygonMoved imap srcElem srcId newPts stP srcElem) dta.line ∧
        ∀ c ∈ imap dta.id,
          onPolygonMoved imap srcElem srcId newPts stP c.shape =
            reflectPts (onPolygonMoved imap srcElem srcId newPts stP dta.shape) c.line) := by
  have hsrc : srcElem ∉ imageWrites imap (imap srcId) := (List.nodup_cons.mp hnd).1
  constructor
  · have hsrcval : onCircleMoved imap srcElem srcId newCenter st srcElem = newCenter := by
      unfold onCircleMoved onSourceMoved
      rw [propagateImages_frame _ _ _ _ _ _ hsrc]
      simp [updStore]
    refine ⟨hsrcval, fun dta hdta => ?_⟩
    have hcorr := propagateImages_correct (fun p l => reflect p l) imap srcElem (imap srcId)
      (updStore st srcElem newCenter) hnd dta hdta
    have hbase : updStore st srcElem newCenter srcElem = newCenter := by simp [updStore]
    unfold onCircleMoved onSourceMoved
    rw [hbase] at hcorr
    refine ⟨?_, hcorr.2⟩
    rw [hcorr.1]
    unfold onCircleMoved onSourceMoved at hsrcval
    rw [hsrcval]
  · have hsrcval : onPolygonMoved imap srcElem srcId newPts stP srcElem = newPts := by
      unfold onPolygonMoved onSourceMoved
      rw [propagateImages_frame _ _ _ _ _ _ hsrc]
      simp [updStore]
    refine ⟨hsrcval, fun dta hdta => ?_⟩
    have hcorr := propagateImages_correct reflectPts imap srcElem (imap srcId)
      (updStore stP srcElem newPts) hnd dta hdta
    have hbase : updStore stP srcElem newPts srcElem = newPts := by simp [updStore]
    unfold onPolygonMoved onSourceMoved
    rw [hbase] at hcorr
    refine ⟨?_, hcorr.2⟩
    rw [hcorr.1]
    unfold onPolygonMoved onSourceMoved at hsrcval
    rw [hsrcval]

/-- Concrete mirror lines (left and right walls of a 100-wide room) and a
concrete ownership map as built for a circle source with left-right
mirrors: two first-order images on handles 1 and 3, each with one
second-order child on handles 2 and 4. -/
def demoLeft : Ln := ⟨⟨0, 0⟩, ⟨0, 100⟩⟩

def demoRight : Ln := ⟨⟨100, 0⟩, ⟨100, 100⟩⟩

def demoImap : String → List ImageDataRef := fun s =>
  if s = "c" then [⟨1, demoLeft, "creflection0"⟩, ⟨3, demoRight, "creflection1"⟩]
  else if s = "creflection0" then [⟨2, demoRight, "creflection01"⟩]
  else if s = "creflection1" then [⟨4, demoLeft, "creflection10"⟩]
  else []

/-- C1 witness: the propagation consistency at the concrete ownership map,
with the source on handle 0 moved to (60, 40). -/
theorem onSourceMoved_images_consistent_witness :
    ((0 : ℕ) :: imageWrites demoImap (demoImap "c")).Nodup ∧
    ((onCircleMoved demoImap 0 "c" ⟨60, 40⟩ (fun _ => ⟨50, 50⟩) 0 = ⟨60, 40⟩ ∧
      ∀ dta ∈ demoImap "c",
        onCircleMoved demoImap 0 "c" ⟨60, 40⟩ (fun _ => ⟨50, 50⟩) dta.shape =
          reflect (onCircleMoved demoImap 0 "c" ⟨60, 40⟩ (fun _ => ⟨50, 50⟩) 0) dta.line ∧
        ∀ c ∈ demoImap dta.id,
          onCircleMoved demoImap 0 "c" ⟨60, 40⟩ (fun _ => ⟨50, 50⟩) c.shape =
            reflect (onCircleMoved demoImap 0 "c" ⟨60, 40⟩ (fun _ => ⟨50, 50⟩) dta.shape) c.line) ∧
    (onPolygonMoved demoImap 0 "c" [⟨60, 40⟩] (fun _ => [⟨50, 50⟩]) 0 = [⟨60, 40⟩] ∧
      ∀ dta ∈ demoImap "c",
        onPolygonMoved demoImap 0 "c" [⟨60, 40⟩] (fun _ => [⟨50, 50⟩]) dta.shape =
          reflectPts (onPolygonMoved demoImap 0 "c" [⟨60, 40⟩] (fun _ => [⟨50, 50⟩]) 0) dta.line ∧
        ∀ c ∈ demoImap dta.id,
          onPolygonMoved demoImap 0 "c" [⟨60, 40⟩] (fun _ => [⟨50, 50⟩]) c.shape =
            reflectPts (onPolygonMoved demoImap 0 "c" [⟨60, 40⟩] (fun _ => [⟨50, 50⟩]) dta.shape) c.line)) :=
  ⟨by decide,
    onSourceMoved_images_consistent demoImap 0 "c" ⟨60, 40⟩ (fun _ => ⟨50, 50⟩)
      [⟨60, 40⟩] (fun _ => [⟨50, 50⟩]) (by decide)⟩

/-- C2 witness: the image counts for a concrete circle source and concrete
bounds. -/
theorem buildImages_all_counts_witness :
    ((⟨"circle1", .circle, true, some 50, some 50, some 10, none⟩ : ShapeRec).ty =
        ShapeType.circle ∨
      ((⟨"circle1", .circle, true, some 50, some 50, some 10, none⟩ : ShapeRec).ty =
          ShapeType.polygon ∧
        (⟨"circle1", .circle, true, some 50, some 50, some 10, none⟩ : ShapeRec).points ≠ none)) ∧
    ∃ imgs,
      buildImages (setupMirrors (some .all) ⟨0, 0, 100, 100⟩)
          ⟨"circle1", .circle, true, some 50, some 50, some 10, none⟩ = .ok imgs ∧
        (imgs.filter (fun im => im.j.isNone)).length = 4 ∧
        (imgs.filter (fun im => im.j.isSome)).length = 12 ∧
        imgs.length = 16 ∧
        ∀ im ∈ imgs, ∀ k, im.j = some k → im.i ≠ k :=
  ⟨Or.inl rfl,
    buildImages_all_counts ⟨0, 0, 100, 100⟩
      ⟨"circle1", .circle, true, some 50, some 50, some 10, none⟩ (Or.inl rfl)⟩

/-- Radius read of the circle drag branch of onMouseMove (src/unnamed/
part_003 lines 480-496): parseFloat(getAttribute r or "0"), then the
per-axis clamp of the candidate center. -/
def dragCircleNewCenter (b : RoomBounds) (s : ShapeRec) (proposed : Pt) : Pt :=
  dragClampCircle b (s.r.getD 0) proposed

/-- C8 counterexample: reflecting a polygon-typed shape whose points
attribute is missing does not yield a zero default; the non-null assertion
makes parsePoints fault, refuting the all-reads-default-to-zero claim at a
concrete input. -/
theorem reflectPolygon_missing_points_faults :
    reflectPolygon ⟨"poly1", ShapeType.polygon, true, none, none, none, none⟩
      ⟨⟨0, 0⟩, ⟨0, 100⟩⟩ = .error "TypeError: points is null" := by
  rfl

/-- C8 amended: the default-to-zero policy holds for the numeric circle
attribute reads — reflectCircle reads cx and cy with the or-zero default
and never faults, and the drag branch reads a missing r as zero — but not
for the polygon points read: reflectPolygon faults exactly when a
polygon-typed shape has no points attribute. -/
theorem attribute_read_policy :
    (∀ (s : ShapeRec) (l : Ln), s.ty = ShapeType.circle →
      reflectCircle s l = some (reflect ⟨s.cx.getD 0, s.cy.getD 0⟩ l)) ∧
    (∀ (b : RoomBounds) (s : ShapeRec) (p : Pt), s.r = none →
      dragCircleNewCenter b s p = dragClampCircle b 0 p) ∧
    (∀ (s : ShapeRec) (l : Ln),
      (∃ e, reflectPolygon s l = .error e) ↔
        (s.ty = ShapeType.polygon ∧ s.points = none)) := by
  refine ⟨fun s l h => ?_, fun b s p h => ?_, fun s l => ?_⟩
  · simp [reflectCircle, h]
  · simp [dragCircleNewCenter, h]
  · unfold reflectPolygon
    rcases hty : s.ty <;> rcases hp : s.points <;> simp [hty, hp]

/-- C8 witness: the amended read policy at concrete inputs — a circle with
no cx and cy reflects the zero default, and a points-bearing polygon does
not fault. -/
theorem attribute_read_policy_witness :
    (⟨"c0", ShapeType.circle, true, none, none, none, none⟩ : ShapeRec).ty =
        ShapeType.circle ∧
      reflectCircle ⟨"c0", ShapeType.circle, true, none, none, none, none⟩
          ⟨⟨0, 0⟩, ⟨1, 0⟩⟩ =
        some (reflect ⟨(none : Option ℚ).getD 0, (none : Option ℚ).getD 0⟩ ⟨⟨0, 0⟩, ⟨1, 0⟩⟩) :=
  ⟨rfl, attribute_read_policy.1 ⟨"c0", ShapeType.circle, true, none, none, none, none⟩
    ⟨⟨0, 0⟩, ⟨1, 0⟩⟩ rfl⟩

/-- Drag-session state of the class (src/unnamed/part_003 lines 47-51):
isDragging, currentShape (the grabbed element), currentShapeType, and the
pointer-to-anchor offsets. -/
structure DragState where
  isDragging : Bool
  current : Option ShapeRec
  currentType : Option ShapeType
  offsetX : ℚ
  offsetY : ℚ
deriving DecidableEq, Repr

/-- Initial drag state: not dragging, no current shape, zero offsets. -/
def initDragState : DragState := ⟨false, none, none, 0, 0⟩

/-- Boolean test that pat occurs as a prefix of l. -/
def hasPrefixChars : List Char → List Char → Bool
  | [], _ => true
  | _ :: _, [] => false
  | a :: as, b :: bs => a = b && hasPrefixChars as bs

/-- Boolean test that pat occurs as a contiguous substring of l, the
semantics of the String.includes call of the source. -/
def hasSubChars (pat : List Char) : List Char → Bool
  | [] => pat.isEmpty
  | c :: rest => hasPrefixChars pat (c :: rest) || hasSubChars pat rest

/-- Embedding of the image test of onMouseDown (src/unnamed/part_003 line
429): the data-shape-id attribute contains the substring reflection. -/
def isImageId (id : String) : Bool :=
  hasSubChars "reflection".toList id.toList

/-- Embedding of onMouseDown (src/unnamed/part_003 lines 425-460) as a
drag-state transition. Returns the drag state after the handler, whether
the sight-line trace was triggered (the image branch), and the TypeError
a non-null assertion would throw, if any. In the image branch the handler
calls drawSightLine and returns before touching any drag field; in the
drag branch isDragging, currentShape and currentShapeType are assigned
before the offsets are computed, so a fault in the polygon offset read
leaves the offsets at their previous values. -/
def onMouseDown (s : DragState) (t : ShapeRec) (evX evY svgL svgT : ℚ) :
    DragState × Bool × Option String :=
  if isImageId t.id then (s, true, none)
  else if t.draggable = false then (s, false, none)
  else
    let s1 : DragState :=
      { isDragging := true, current := some t, currentType := some t.ty,
        offsetX := s.offsetX, offsetY := s.offsetY }
    match t.ty with
    | .circle =>
      ({ s1 with offsetX := evX - svgL - t.cx.getD 0, offsetY := evY - svgT - t.cy.getD 0 },
        false, none)
    | _ =>
      match t.points with
      | none => (s1, false, some "TypeError: points is null")
      | some [] => (s1, false, some "TypeError: no first point")
      | some (p0 :: _) =>
        ({ s1 with offsetX := evX - svgL - p0.x, offsetY := evY - svgT - p0.y }, false, none)

/-- Pointer events as delivered to the bound handlers; a down event whose
target is not an SVG shape carries none. -/
inductive SimEvent where
  | down (t : Option ShapeRec) (evX evY svgL svgT : ℚ)
  | move (evX evY svgL svgT : ℚ)
  | up

/-- One step of the drag state machine: onMouseDown for down events (a
non-shape target returns immediately), onMouseMove for move events (it
mutates only geometry attributes, never the drag fields), and onMouseUp
(src/unnamed/part_003 lines 568-576) for up events, which clears
isDragging, currentShape and currentShapeType. -/
def stepDrag (s : DragState) : SimEvent → DragState
  | .down none _ _ _ _ => s
  | .down (some t) evX evY svgL svgT => (onMouseDown s t evX evY svgL svgT).1
  | .move _ _ _ _ => s
  | .up => { isDragging := false, current := none, currentType := none,
             offsetX := s.offsetX, offsetY := s.offsetY }

theorem onMouseDown_current_cases (s : DragState) (t : ShapeRec) (evX evY svgL svgT : ℚ) :
    (isImageId t.id = true → onMouseDown s t evX evY svgL svgT = (s, true, none)) ∧
    ((onMouseDown s t evX evY svgL svgT).1.current = s.current ∨
      (onMouseDown s t evX evY svgL svgT).1.current = some t) := by
  constructor
  · intro h
    simp [onMouseDown, h]
  · unfold onMouseDown
    by_cases him : isImageId t.id
    · simp [him]
    · by_cases hdr : t.draggable = false
      · simp [him, hdr]
      · rcases hty : t.ty <;> rcases hp : t.points with _ | ⟨_ | ⟨p0, ps⟩⟩ <;>
          simp [him, hdr, hty, hp]

theorem stepDrag_image_free (s : DragState) (e : SimEvent)
    (hP : ∀ t, s.current = some t → isImageId t.id = false) :
    ∀ t, (stepDrag s e).current = some t → isImageId t.id = false := by
  cases e with
  | down t? evX evY svgL svgT =>
    cases t? with
    | none => exact hP
    | some t =>
      intro t' ht'
      by_cases him : isImageId t.id
      · rw [show stepDrag s (.down (some t) evX evY svgL svgT) =
            (onMouseDown s t evX evY svgL svgT).1 from rfl,
          (onMouseDown_current_cases s t evX evY svgL svgT).1 him] at ht'
        exact hP t' ht'
      · rcases (onMouseDown_current_cases s t evX evY svgL svgT).2 with hc | hc
        · rw [show stepDrag s (.down (some t) evX evY svgL svgT) =
              (onMouseDown s t evX evY svgL svgT).1 from rfl, hc] at ht'
          exact hP t' ht'
        · rw [show stepDrag s (.down (some t) evX evY svgL svgT) =
              (onMouseDown s t evX evY svgL svgT).1 from rfl, hc] at ht'
          cases ht'
          simpa using him
  | move evX evY svgL svgT => exact hP
  | up => intro t' ht'; cases ht'

theorem foldl_stepDrag_image_free (evs : List SimEvent) (s : DragState)
    (hP : ∀ t, s.current = some t → isImageId t.id = false) :
    ∀ t, (evs.foldl stepDrag s).current = some t → isImageId t.id = false := by
  induction evs generalizing s with
  | nil => exact hP
  | cons e rest ih =>
    exact ih (stepDrag s e) (stepDrag_image_free s e hP)

/-- C7: a pointer-down whose target is an image shape triggers the trace
and leaves every drag field exactly as it was, and consequently in any
state reachable by a sequence of pointer events from the initial state the
current dragged shape is never an image shape. -/
theorem mousedown_image_never_drags :
    (∀ (s : DragState) (t : ShapeRec) (evX evY svgL svgT : ℚ), isImageId t.id = true →
      onMouseDown s t evX evY svgL svgT = (s, true, none)) ∧
    (∀ (evs : List SimEvent) (t : ShapeRec),
      (evs.foldl stepDrag initDragState).current = some t → isImageId t.id = false) := by
  constructor
  · intro s t evX evY svgL svgT h
    exact (onMouseDown_current_cases s t evX evY svgL svgT).1 h
  · intro evs t
    exact foldl_stepDrag_image_free evs initDragState
      (by intro t' ht'; cases ht') t

/-- C7 witness: a concrete image-shape pointer-down leaves a concrete drag
state unchanged, and after a concrete event list the dragged shape is not
an image. -/
theorem mousedown_image_never_drags_witness :
    isImageId "circle1reflection0" = true ∧
    onMouseDown initDragState
        ⟨"circle1reflection0", .circle, false, some 350, some 350, some 15, none⟩
        10 20 0 0 = (initDragState, true, none) ∧
    (([SimEvent.down (some ⟨"circle1", .circle, true, some 450, some 350, some 15, none⟩)
          10 20 0 0].foldl stepDrag initDragState).current =
        some ⟨"circle1", .circle, true, some 450, some 350, some 15, none⟩ ∧
      isImageId "circle1" = false) :=
  ⟨by decide,
    mousedown_image_never_drags.1 initDragState
      ⟨"circle1reflection0", .circle, false, some 350, some 350, some 15, none⟩
      10 20 0 0 (by decide),
    by decide,
    mousedown_image_never_drags.2
      [SimEvent.down (some ⟨"circle1", .circle, true, some 450, some 350, some 15, none⟩)
        10 20 0 0]
      ⟨"circle1", .circle, true, some 450, some 350, some 15, none⟩ (by decide)⟩

/-- C10: image classification at pointer-down is a substring test on the
shape id, independent of the ownership graph: any shape whose id contains
the substring reflection — in particular a source shape configured with
draggable true — triggers the sight-line trace and never starts a drag. -/
theorem image_classification_by_substring (s : DragState) (t : ShapeRec)
    (evX evY svgL svgT : ℚ) (him : isImageId t.id = true) (_hdr : t.draggable = true) :
    onMouseDown s t evX evY svgL svgT = (s, true, none) ∧
    (onMouseDown s t evX evY svgL svgT).1.isDragging = s.isDragging := by
  refine ⟨by simp [onMouseDown, him], ?_⟩
  simp [onMouseDown, him]

/-- C10 witness: a draggable source shape whose configured id contains the
substring reflection triggers the trace instead of a drag. -/
theorem image_classification_by_substring_witness :
    isImageId "myreflectionsource" = true ∧
    (⟨"myreflectionsource", .circle, true, some 50, some 50, some 10, none⟩ : ShapeRec).draggable
        = true ∧
    onMouseDown initDragState
        ⟨"myreflectionsource", .circle, true, some 50, some 50, some 10, none⟩ 5 5 0 0 =
      (initDragState, true, none) :=
  ⟨by decide, rfl,
    (image_classification_by_substring initDragState
      ⟨"myreflectionsource", .circle, true, some 50, some 50, some 10, none⟩ 5 5 0 0
      (by decide) rfl).1⟩

/-- All characters are decimal digits. -/
def allDigits (l : List Char) : Bool :=
  l.all (fun c => c.isDigit)

/-- The list matches the regular expression reflection-digits-end: it is
the literal reflection followed by one or more digits reaching the end. -/
def reflSuffixHere (l : List Char) : Bool :=
  hasPrefixChars "reflection".toList l && !(l.drop 10).isEmpty && allDigits (l.drop 10)

/-- Leftmost-match removal of the trailing reflection-digits suffix, the
replace of src/unnamed/part_003 line 367: scanning left to right, the
first position from which the rest of the id is reflection followed only
by digits is cut off; an id without such a suffix is returned unchanged. -/
def stripReflChars : List Char → List Char
  | [] => []
  | c :: rest => if reflSuffixHere (c :: rest) then [] else c :: stripReflChars rest

/-- Root-source resolution applied to a shape id (line 367). -/
def stripRefl (s : String) : String :=
  ⟨stripReflChars s.data⟩

/-- Modelled from the spec: the polygon centroid of the external geometry
library (Polygon.centroid of @mathigon/euclid, not part of this
repository), specified as the arithmetic mean of the vertices. -/
def centroid (ps : List Pt) : Pt :=
  ⟨(ps.map Pt.x).sum / ps.length, (ps.map Pt.y).sum / ps.length⟩

/-- Center-point extraction shared by drawSightLine (lines 337-347) and
drawLightPath (lines 370-379): a zero point, replaced by the cx/cy center
(or-zero defaults) for a circle element or the centroid of the parsed
points for a polygon element; the polygon read is non-null asserted, so a
missing points attribute throws. Any other element keeps the zero point. -/
def elementCenter (s : ShapeRec) : Except String Pt :=
  match s.ty with
  | .circle => .ok ⟨s.cx.getD 0, s.cy.getD 0⟩
  | .polygon =>
    match s.points with
    | none => .error "TypeError: points is null"
    | some ps => .ok (centroid ps)
  | .path => .ok ⟨0, 0⟩

/-- querySelector over the svg children by data-shape-id: the first shape
with the given id, none when absent. -/
def querySelectorById (shapes : List ShapeRec) (id : String) : Option ShapeRec :=
  shapes.find? (fun s => s.id == id)

/-- First segment of the list crossed by sg, with the crossing point: the
for-loop-with-break pattern of drawLightPath (lines 385-392 and 398-404). -/
def findFirstCrossing (walls : List Seg) (sg : Seg) : Option (Seg × Pt) :=
  match walls with
  | [] => none
  | w :: rest =>
    match segIntersect sg w with
    | some p => some (w, p)
    | none => findFirstCrossing rest sg

/-- Embedding of drawLightPath (src/unnamed/part_003 lines 365-423):
resolve the clicked image's root source by stripping the reflection suffix
(a missing root element makes the non-null-asserted tagName access throw),
take its center, find the first room-boundary segment crossed by the
click-to-observer segment (none crossed: return with nothing drawn), then
the first secondary-ring crossing reflected across the exit wall as the
bounce point, and emit the consecutive segments of the defined waypoints
source, bounce, exit, observer. -/
def drawLightPath (shapes : List ShapeRec) (b : RoomBounds) (target : ShapeRec)
    (clickPoint endPoint : Pt) : Except String (List (Pt × Pt)) :=
  match querySelectorById shapes (stripRefl target.id) with
  | none => .error "TypeError: shapeParent is null"
  | some par =>
    match elementCenter par with
    | .error e => .error e
    | .ok startingSource =>
      let sg : Seg := ⟨clickPoint, endPoint⟩
      match findFirstCrossing (roomSegments b) sg with
      | none => .ok []
      | some (wallHit, lastBounce) =>
        let firstBounce : Option Pt :=
          match findFirstCrossing (secondarySegments b) sg with
          | none => none
          | some (_, p) => some (reflect p ⟨wallHit.p1, wallHit.p2⟩)
        let bouncePoints :=
          ([some startingSource, firstBounce, some lastBounce, some endPoint]).reduceOption
        .ok (bouncePoints.zip bouncePoints.tail)

/-- Embedding of drawSightLine (src/unnamed/part_003 lines 334-363): the
center of the clicked image, the observer element looked up by id under a
non-null assertion (a configuration without an observer shape throws), the
dashed sight ray from the image center to the observer, then the light
path. The returned list is every drawn ray segment; the asynchronous
staging of drawLightPath only delays drawing and is not modelled. -/
def drawSightLine (shapes : List ShapeRec) (b : RoomBounds) (target : ShapeRec) :
    Except String (List (Pt × Pt)) :=
  match elementCenter target with
  | .error e => .error e
  | .ok centerPoint =>
    match querySelectorById shapes "observer" with
    | none => .error "TypeError: observer is null"
    | some obs =>
      let endPoint : Pt := ⟨obs.cx.getD 0, obs.cy.getD 0⟩
      match drawLightPath shapes b target centerPoint endPoint with
      | .error e => .error e
      | .ok segs => .ok ((centerPoint, endPoint) :: segs)

/-- C5 counterexample: in a configuration with no shape of id observer —
as in the shipped demo configurations — a pointer-down on an image shape
makes the trace throw a TypeError on the observer lookup instead of
degrading silently, refuting the never-throws claim at a concrete input. -/
theorem drawSightLine_throws_without_observer :
    drawSightLine
      [⟨"circle1", .circle, true, some 450, some 350, some 15, none⟩,
       ⟨"circle1reflection0", .circle, false, some 350, some 350, some 15, none⟩]
      ⟨400, 300, 200, 200⟩
      ⟨"circle1reflection0", .circle, false, some 350, some 350, some 15, none⟩ =
      .error "TypeError: observer is null" := by
  rfl

/-- C5 amended: for every configuration state that contains an observer
shape and the clicked image's resolved root source, and whose polygon
shapes carry a points attribute, the trace never throws: it returns a list
of drawn segments, possibly empty, for any bounds and any image target —
the no-crossing failures degrade to drawing nothing. -/
theorem drawSightLine_no_throw (shapes : List ShapeRec) (b : RoomBounds)
    (target : ShapeRec) (obs par : ShapeRec)
    (hobs : querySelectorById shapes "observer" = some obs)
    (hpar : querySelectorById shapes (stripRefl target.id) = some par)
    (htgt : target.ty = ShapeType.polygon → target.points ≠ none)
    (hparp : par.ty = ShapeType.polygon → par.points ≠ none) :
    ∃ out, drawSightLine shapes b target = .ok out := by
  have hctr : ∃ cp, elementCenter target = .ok cp := by
    unfold elementCenter
    rcases hty : target.ty
    · exact ⟨_, rfl⟩
    · rcases hp : target.points with _ | ps
      · exact absurd hp (htgt hty)
      · exact ⟨_, rfl⟩
    · exact ⟨_, rfl⟩
  have hpctr : ∃ sp, elementCenter par = .ok sp := by
    unfold elementCenter
    rcases hty : par.ty
    · exact ⟨_, rfl⟩
    · rcases hp : par.points with _ | ps
      · exact absurd hp (hparp hty)
      · exact ⟨_, rfl⟩
    · exact ⟨_, rfl⟩
  obtain ⟨cp, hcp⟩ := hctr
  obtain ⟨sp, hsp⟩ := hpctr
  have hpath : ∀ (click endp : Pt), ∃ segs,
      drawLightPath shapes b target click endp = .ok segs := by
    intro click endp
    unfold drawLightPath
    rcases hfc : findFirstCrossing (roomSegments b) ⟨click, endp⟩ with _ | ⟨w, p⟩ <;>
      · simp only [hpar, hsp, hfc]
        exact ⟨_, rfl⟩
  obtain ⟨segs, hsegs⟩ := hpath cp ⟨obs.cx.getD 0, obs.cy.getD 0⟩
  unfold drawSightLine
  simp only [hcp, hobs, hsegs]
  exact ⟨_, rfl⟩

/-- Concrete configuration with an observer, a draggable source and one of
its image shapes, for the trace witness. -/
def demoObs : ShapeRec := ⟨"observer", .circle, false, some 450, some 400, some 8, none⟩

def demoSrc : ShapeRec := ⟨"circle1", .circle, true, some 450, some 350, some 15, none⟩

def demoImg : ShapeRec := ⟨"circle1reflection0", .circle, false, some 350, some 350, some 15, none⟩

def demoShapes : List ShapeRec := [demoObs, demoSrc, demoImg]

/-- C5 witness: the amended no-throw property at a concrete configuration
that does contain an observer. -/
theorem drawSightLine_no_throw_witness :
    querySelectorById demoShapes "observer" = some demoObs ∧
    querySelectorById demoShapes (stripRefl demoImg.id) = some demoSrc ∧
    ∃ out, drawSightLine demoShapes ⟨400, 300, 200, 200⟩ demoImg = .ok out :=
  ⟨by decide, by decide,
    drawSightLine_no_throw demoShapes ⟨400, 300, 200, 200⟩ demoImg demoObs demoSrc
      (by decide) (by decide) (by intro h; cases h) (by intro h; cases h)⟩

/-- C6 amended: a trace whose direct segment crosses no room-boundary
segment draws nothing (a visible no-op), and one that crosses a boundary
but no secondary-ring segment produces no bounce point and degrades to the
two segments source to exit point and exit point to observer (the exit
point stays on the path; only the bounce waypoint is dropped). -/
theorem drawLightPath_degrades (shapes : List ShapeRec) (b : RoomBounds)
    (target : ShapeRec) (clickPoint endPoint : Pt) (par : ShapeRec) (startingSource : Pt)
    (hpar : querySelectorById shapes (stripRefl target.id) = some par)
    (hctr : elementCenter par = .ok startingSource) :
    (findFirstCrossing (roomSegments b) ⟨clickPoint, endPoint⟩ = none →
      drawLightPath shapes b target clickPoint endPoint = .ok []) ∧
    (∀ wallHit lastBounce,
      findFirstCrossing (roomSegments b) ⟨clickPoint, endPoint⟩ = some (wallHit, lastBounce) →
      findFirstCrossing (secondarySegments b) ⟨clickPoint, endPoint⟩ = none →
      drawLightPath shapes b target clickPoint endPoint =
        .ok [(startingSource, lastBounce), (lastBounce, endPoint)]) := by
  constructor
  · intro hnone
    unfold drawLightPath
    simp only [hpar, hctr, hnone]
  · intro wallHit lastBounce hsome hsec
    unfold drawLightPath
    simp only [hpar, hctr, hsome, hsec]
    rfl

/-- C6 counterexample: with the room at the origin, source at (30, 70),
image clicked at (50, -50) and observer at (50, 50), the direct segment
crosses the top wall at (50, 0) and no secondary-ring segment, and the
drawn path is source to exit point to observer — two segments through
(50, 0) — not the single direct source-to-observer segment the claim
states. -/
theorem drawLightPath_degrade_not_direct :
    drawLightPath [⟨"c", .circle, true, some 30, some 70, some 10, none⟩]
        ⟨0, 0, 100, 100⟩ ⟨"creflection0", .circle, false, some 50, some (-50), some 10, none⟩
        ⟨50, -50⟩ ⟨50, 50⟩ =
      .ok [(⟨30, 70⟩, ⟨50, 0⟩), (⟨50, 0⟩, ⟨50, 50⟩)] ∧
    ([(⟨30, 70⟩, ⟨50, 0⟩), (⟨50, 0⟩, ⟨50, 50⟩)] : List (Pt × Pt)) ≠
      [(⟨30, 70⟩, ⟨50, 50⟩)] := by
  constructor
  · norm_num [drawLightPath, querySelectorById, elementCenter, findFirstCrossing,
      segIntersect, roomSegments, secondarySegments, stripRefl, stripReflChars,
      reflSuffixHere, hasPrefixChars, allDigits, List.find?]
    decide
  · decide

/-- C6 witness: the degraded path at concrete inputs — the top wall is
crossed at (40, 0), no secondary segment is crossed, and the drawn path is
the two segments through the exit point. -/
theorem drawLightPath_degrades_witness :
    findFirstCrossing (roomSegments ⟨0, 0, 100, 100⟩) ⟨⟨40, -60⟩, ⟨40, 60⟩⟩ =
      some (⟨⟨0, 0⟩, ⟨100, 0⟩⟩, ⟨40, 0⟩) ∧
    findFirstCrossing (secondarySegments ⟨0, 0, 100, 100⟩) ⟨⟨40, -60⟩, ⟨40, 60⟩⟩ = none ∧
    drawLightPath [⟨"s", .circle, true, some 20, some 80, some 10, none⟩]
        ⟨0, 0, 100, 100⟩ ⟨"sreflection0", .circle, false, some 40, some (-60), some 10, none⟩
        ⟨40, -60⟩ ⟨40, 60⟩ =
      .ok [(⟨20, 80⟩, ⟨40, 0⟩), (⟨40, 0⟩, ⟨40, 60⟩)] := by
  have hroom : findFirstCrossing (roomSegments ⟨0, 0, 100, 100⟩) ⟨⟨40, -60⟩, ⟨40, 60⟩⟩ =
      some (⟨⟨0, 0⟩, ⟨100, 0⟩⟩, ⟨40, 0⟩) := by
    norm_num [findFirstCrossing, roomSegments, segIntersect]
  have hsec : findFirstCrossing (secondarySegments ⟨0, 0, 100, 100⟩) ⟨⟨40, -60⟩, ⟨40, 60⟩⟩ =
      none := by
    norm_num [findFirstCrossing, secondarySegments, segIntersect]
  exact ⟨hroom, hsec,
    (drawLightPath_degrades [⟨"s", .circle, true, some 20, some 80, some 10, none⟩]
        ⟨0, 0, 100, 100⟩ ⟨"sreflection0", .circle, false, some 40, some (-60), some 10, none⟩
        ⟨40, -60⟩ ⟨40, 60⟩ ⟨"s", .circle, true, some 20, some 80, some 10, none⟩ ⟨20, 80⟩
        (by decide) (by decide)).2
      ⟨⟨0, 0⟩, ⟨100, 0⟩⟩ ⟨40, 0⟩ hroom hsec⟩

/-- State of the earlier OpticsSim iteration (src/src/main.ts lines
86-394): the configured bounds and shape list, the derived mirror lines,
the imageMap from parent id to image element handles, the drag fields, and
the element store holding the current attributes of every created SVG
element. -/
structure SimStateV1 where
  bounds : RoomBounds
  shapes : List ShapeRec
  mirrorLines : List Ln
  imageMap : List (String × List ℕ)
  drag : DragState
  dom : ℕ → ShapeRec

/-- Embedding of updateBounds (src/src/main.ts lines 386-388): the stored
bounds are replaced and nothing else is touched — in particular the mirror
lines are not re-derived. -/
def updateBounds (st : SimStateV1) (nb : RoomBounds) : SimStateV1 :=
  { st with bounds := nb }

/-- C9: updateBounds replaces the stored room bounds and changes nothing
else: mirror lines, image ownership map, configured shapes, drag state and
every element's geometry are left exactly as they were. -/
theorem updateBounds_swaps_only (st : SimStateV1) (nb : RoomBounds) :
    (updateBounds st nb).bounds = nb ∧
    (updateBounds st nb).mirrorLines = st.mirrorLines ∧
    (updateBounds st nb).imageMap = st.imageMap ∧
    (updateBounds st nb).shapes = st.shapes ∧
    (updateBounds st nb).drag = st.drag ∧
    (updateBounds st nb).dom = st.dom :=
  ⟨rfl, rfl, rfl, rfl, rfl, rfl⟩

end OpticsSim
